import Mathlib

/-!
Verification development for the HPCDesktop-FileBrowser repository.

The definitions below are a shallow embedding of the scanner
`src/dirscans/build_lustre_json.py` and of the query-serving component
`src/aiAssistant/mcp_server.py`.  Filesystem trees are modelled as a
mutual inductive (entries and forests) so that the walk functions are
structurally recursive and hence kernel-computable.
-/

/-! ## Filesystem model

An `FSEntry` is one object in a directory listing as `os.walk` classifies it:
`file` is a regular file, `flink` a symlink whose target is not a directory
(including broken symlinks), `special` a non-regular non-symlink object
(fifo, socket, device), `dir` a real directory and `dlink` a symlink whose
target is a directory with the given children.  `os.walk` puts `file`,
`flink` and `special` into its `files` list and `dir` and `dlink` into its
`dirs` list (symlinks to directories count as directories because the
classification follows links). -/

mutual
inductive FSEntry : Type where
  | file (name : String)
  | flink (name : String)
  | special (name : String)
  | dir (name : String) (children : FSForest)
  | dlink (name : String) (children : FSForest)

inductive FSForest : Type where
  | nil
  | cons (head : FSEntry) (tail : FSForest)
end

def FSForest.toList : FSForest → List FSEntry
  | .nil => []
  | .cons c rest => c :: rest.toList

/-- Name of a filesystem entry. -/
def FSEntry.name : FSEntry → String
  | .file n => n
  | .flink n => n
  | .special n => n
  | .dir n _ => n
  | .dlink n _ => n

/-- Whether `os.walk` lists the entry in its `files` component
(everything that is not a directory after following links). -/
def FSEntry.isFileListed : FSEntry → Bool
  | .file _ => true
  | .flink _ => true
  | .special _ => true
  | _ => false

/-- Whether `os.walk` lists the entry in its `dirs` component
(real directories and symlinks to directories, since classification
follows links). -/
def FSEntry.isDirListed : FSEntry → Bool
  | .dir _ _ => true
  | .dlink _ _ => true
  | _ => false

/-- The value of `os.path.islink` for the entry. -/
def FSEntry.islink : FSEntry → Bool
  | .flink _ => true
  | .dlink _ _ => true
  | _ => false

/-- The test `os.path.isfile(p) or os.path.islink(p)` used by
`scan_directory` to select work-list entries: true for regular files and
for every symlink (to a file, broken, or to a directory), false for real
directories and for special files. -/
def FSEntry.isfileOrIslink : FSEntry → Bool
  | .file _ => true
  | .flink _ => true
  | .dlink _ _ => true
  | _ => false

/-- Path concatenation `os.path.join(p, n)` for a directory path and a
child name. -/
def joinPath (p n : String) : String := p ++ "/" ++ n

/-! ## Computable string operations

The Lean core implementations of `String.splitOn`, `String.trim`,
`String.split` and of the order on `String` iterate over byte positions
and do not reduce inside the kernel, so the Python string operations the
scanner uses are given here as structural recursions over the character
list of a string.  Semantically they are the standard operations:
code-point lexicographic comparison, single-character splitting,
whitespace stripping, substring membership, ASCII lowering and decimal
parsing. -/

def slashChar : Char := Char.ofNat 47
def colonChar : Char := Char.ofNat 58
def nlChar : Char := Char.ofNat 10

/-- ASCII whitespace as Python `str.strip`/`str.split` treat it. -/
def isWsChar (c : Char) : Bool :=
  c.toNat = 32 || c.toNat = 9 || c.toNat = 10 || c.toNat = 13
    || c.toNat = 11 || c.toNat = 12

def isDigitChar (c : Char) : Bool := 48 ≤ c.toNat && c.toNat ≤ 57

/-- Code-point lexicographic `a <= b`, the comparison Python `sorted` and
`list.sort` apply to strings. -/
def lexLe : List Char → List Char → Bool
  | [], _ => true
  | _ :: _, [] => false
  | a :: as, b :: bs => if a = b then lexLe as bs else decide (a.toNat < b.toNat)

def pyStrLe (a b : String) : Bool := lexLe a.data b.data

/-- Insert into a sorted list, before the first element not below `x`
(stable insertion sort, matching Python's stable sort on keys). -/
def insertSortedBy {α : Type} (le : α → α → Bool) (x : α) : List α → List α
  | [] => [x]
  | y :: ys => if le x y then x :: y :: ys else y :: insertSortedBy le x ys

def sortListBy {α : Type} (le : α → α → Bool) : List α → List α
  | [] => []
  | x :: xs => insertSortedBy le x (sortListBy le xs)

/-- Python `s.split(sep)` for a one-character separator (every `split` /
`splitOn` in the source uses `":"`, `"\n"` or `"/"`). -/
def splitChars (sep : Char) : List Char → List (List Char)
  | [] => [[]]
  | c :: rest =>
      match splitChars sep rest with
      | [] => [[]]
      | cur :: more => if c = sep then [] :: cur :: more else (c :: cur) :: more

def strSplitChar (sep : Char) (s : String) : List String :=
  (splitChars sep s.data).map String.mk

/-- Python `s.strip()`. -/
def strTrim (s : String) : String :=
  String.mk (((s.data.dropWhile isWsChar).reverse.dropWhile isWsChar).reverse)

/-- Python `s.split()` (split on whitespace runs, dropping empties). -/
def splitWsChars : List Char → List (List Char)
  | [] => [[]]
  | c :: rest =>
      match splitWsChars rest with
      | [] => [[]]
      | cur :: more => if isWsChar c then [] :: cur :: more else (c :: cur) :: more

def strSplitWs (s : String) : List String :=
  ((splitWsChars s.data).map String.mk).filter (fun w => w ≠ "")

/-- Whether `needle` occurs at the start of `hay`. -/
def startsWithChars : List Char → List Char → Bool
  | _, [] => true
  | [], _ :: _ => false
  | a :: as, b :: bs => a = b && startsWithChars as bs

/-- Python substring membership `needle in hay`. -/
def hasSubChars (hay needle : List Char) : Bool :=
  match hay with
  | [] => needle.isEmpty
  | _ :: rest => startsWithChars hay needle || hasSubChars rest needle

/-- Python `str.lower()` (ASCII). -/
def strToLower (s : String) : String := String.mk (s.data.map Char.toLower)

def decDigitsToNat (l : List Char) : Nat :=
  l.foldl (fun a c => a * 10 + (c.toNat - 48)) 0

/-- Python `int(s)` on an already-stripped string: an optional sign
followed by at least one decimal digit; anything else raises (here:
`none`). -/
def strToIntOpt (s : String) : Option Int :=
  match s.data with
  | [] => none
  | c :: rest =>
      if c.toNat = 45 then
        if rest ≠ [] && rest.all isDigitChar then some (-(decDigitsToNat rest : Int))
        else none
      else if c.toNat = 43 then
        if rest ≠ [] && rest.all isDigitChar then some (decDigitsToNat rest : Int)
        else none
      else if (c :: rest).all isDigitChar then some (decDigitsToNat (c :: rest) : Int)
      else none

/-- Sort a list of entries lexicographically by name (the model of
Python's stable `list.sort()` on names). -/
def sortByName (l : List FSEntry) : List FSEntry :=
  sortListBy (fun a b => pyStrLe a.name b.name) l

/-- Sort (entry, walk-result) pairs by entry name; stable, so it permutes
the pairs exactly as `sortByName` permutes the underlying entries. -/
def sortPairsByName (l : List (FSEntry × List String)) : List (FSEntry × List String) :=
  sortListBy (fun a b => pyStrLe a.1.name b.1.name) l

/-- The depth-limit test of `scan_directory` and `collect_directory_tree`:
`current_depth >= max_depth` prunes descent and skips the level.  The
source computes the depth of a walked directory textually
(`root.replace(root_path, "").count(os.sep)`), which agrees with the
structural depth used here whenever the root path string does not reoccur
inside a descendant path. -/
def prunedAt (maxDepth : Option Nat) (depth : Nat) : Bool :=
  match maxDepth with
  | none => false
  | some m => decide (m ≤ depth)

/-- Assemble the contribution of one walked directory: its (sorted) files
that pass `isfile or islink`, then its symlinks-to-directories as leaf
entries, then the recursively collected entries of each subdirectory in
sorted order.  `dsR` pairs each dir-listed child with the walk result of
its subtree; the result of a child does not depend on the order in which
children are visited, so sorting the pairs afterwards is the same as
sorting the children first (as `dirs.sort()` does in the source). -/
def assembleWalk (path : String) (cs : List FSEntry)
    (dsR : List (FSEntry × List String)) : List String :=
  let fs := sortByName (cs.filter FSEntry.isFileListed)
  let sorted := sortPairsByName dsR
  (fs.filter FSEntry.isfileOrIslink).map (fun c => joinPath path c.name)
    ++ ((sorted.map Prod.fst).filter FSEntry.islink).map (fun c => joinPath path c.name)
    ++ sorted.flatMap Prod.snd

mutual
/-- The work-list collection of `scan_directory` for a recursive scan:
the entries gathered by `os.walk(directory_path, followlinks=True)` from
one walked directory.  With `followlinks=True` the walk descends into
symlinks to directories exactly as into real directories, which is why
`dir` and `dlink` have identical bodies. -/
def walkNode (md : Option Nat) (path : String) (depth : Nat) : FSEntry → List String
  | .file _ => []
  | .flink _ => []
  | .special _ => []
  | .dir _ cs =>
      if prunedAt md depth then []
      else assembleWalk path cs.toList (walkForest md path depth cs)
  | .dlink _ cs =>
      if prunedAt md depth then []
      else assembleWalk path cs.toList (walkForest md path depth cs)

/-- Walk every dir-listed child of a directory, pairing it with the
entries of its subtree. -/
def walkForest (md : Option Nat) (path : String) (depth : Nat) : FSForest → List (FSEntry × List String)
  | .nil => []
  | .cons c rest =>
      (if c.isDirListed then
        [(c, walkNode md (joinPath path c.name) (depth + 1) c)]
      else [])
      ++ walkForest md path depth rest
end

/-- The `entries` list built by `scan_directory`: recursive walks use
`os.walk` with depth limit and sorted listings; the non-recursive branch
takes `sorted(os.listdir(directory_path))` filtered by
`os.path.isfile or os.path.islink`. -/
def scan_entries (tree : FSEntry) (rootPath : String) (recursive : Bool)
    (md : Option Nat) : List String :=
  if recursive then walkNode md rootPath 0 tree
  else
    ((sortByName (match tree with
        | .dir _ cs => cs.toList
        | .dlink _ cs => cs.toList
        | _ => [])).filter FSEntry.isfileOrIslink).map
      (fun c => joinPath rootPath c.name)

mutual
/-- The directory set collected by `collect_directory_tree` during a
recursive scan: every directory `os.walk(directory_path, followlinks=True)`
yields whose depth is below the limit. -/
def dirPathsNode (md : Option Nat) (path : String) (depth : Nat) : FSEntry → List String
  | .file _ => []
  | .flink _ => []
  | .special _ => []
  | .dir _ cs =>
      if prunedAt md depth then []
      else path :: dirPathsForest md path depth cs
  | .dlink _ cs =>
      if prunedAt md depth then []
      else path :: dirPathsForest md path depth cs

/-- Collect walked directory paths from the children of a directory. -/
def dirPathsForest (md : Option Nat) (path : String) (depth : Nat) : FSForest → List String
  | .nil => []
  | .cons c rest =>
      dirPathsNode md (joinPath path c.name) (depth + 1) c
        ++ dirPathsForest md path depth rest
end

/-- `sorted(set(l))` on strings. -/
def sortedUnique (l : List String) : List String :=
  sortListBy pyStrLe l.dedup

/-- `collect_directory_tree`: always contains the (absolute) root path;
when recursive it additionally contains every walked directory whose depth
is below the limit; returned as a sorted set. -/
def collect_directory_tree (tree : FSEntry) (rootPath : String)
    (recursive : Bool) (md : Option Nat) : List String :=
  sortedUnique (rootPath :: (if recursive then dirPathsNode md rootPath 0 tree else []))

/-! ## External commands

The scanner shells out through `run_command`, which invokes
`subprocess.run(cmd, shell=True, capture_output=True, text=True, timeout=30)`.
A command's behaviour is modelled by a `CmdEnv` mapping each command string
to the outcome the external tool would produce: its exit code, captured
output streams, and how many seconds it takes to complete.  When the
duration exceeds the timeout, `subprocess.run` raises `TimeoutExpired`,
which `run_command` catches and turns into `None`. -/

structure CmdResult where
  returncode : Nat
  stdout : String
  stderr : String
  duration : Nat
deriving Repr, DecidableEq

def CmdEnv : Type := String → CmdResult

/-- The bounded timeout (seconds) passed to every `subprocess.run` call. -/
def subprocessTimeout : Nat := 30

/-- A single-quote character, used when interpolating a file path into a
shell command. -/
def squote : String := String.singleton (Char.ofNat 39)

/-- Quote a path the way the f-strings in the source do. -/
def quoteArg (s : String) : String := squote ++ s ++ squote

/-- The function `run_command(cmd, ignore_errors)`: exit code 0 yields the
stripped stdout; a nonzero exit yields `None` (or an error string when
`ignore_errors` is false); exceeding the timeout raises `TimeoutExpired`,
caught and turned into `None`. -/
def run_command (env : CmdEnv) (cmd : String) (ignoreErrors : Bool) : Option String :=
  let r := env cmd
  if subprocessTimeout < r.duration then none
  else if r.returncode = 0 then some (strTrim r.stdout)
  else if ignoreErrors then none
  else some ("Error: " ++ strTrim r.stderr)

def cmdStripeV (fp : String) : String := "lfs getstripe -v " ++ quoteArg fp
def cmdStripeY (fp : String) : String := "lfs getstripe -y " ++ quoteArg fp
def cmdStripeO (fp : String) : String := "lfs getstripe -O " ++ quoteArg fp
def cmdPath2fid (fp : String) : String := "lfs path2fid " ++ quoteArg fp
def cmdCompCount (fp : String) : String := "lfs getstripe --component-count " ++ quoteArg fp
def cmdCompId (i : Nat) (fp : String) : String :=
  "lfs getstripe --component-id " ++ toString i ++ " " ++ quoteArg fp
def cmdDf (fp : String) : String := "lfs df " ++ quoteArg fp
def cmdQuota (fp : String) : String := "lfs quota -u $(id -u) " ++ quoteArg fp
def cmdGetfattrD (fp : String) : String := "getfattr -d " ++ quoteArg fp ++ " 2>/dev/null"
def cmdGetfattrSel (fp : String) : String :=
  "getfattr -n security.selinux " ++ quoteArg fp ++ " 2>/dev/null"
def cmdGetfacl (fp : String) : String := "getfacl " ++ quoteArg fp ++ " 2>/dev/null"

/-- Python substring membership `needle in hay` on strings. -/
def containsSub (hay needle : String) : Bool := hasSubChars hay.data needle.data

/-- Python truthiness of an optional string: `None` and the empty string
are falsy; a truthy value is kept. -/
def optTruthy (o : Option String) : Option String :=
  match o with
  | none => none
  | some s => if s = "" then none else some s

/-- The `stripe_parsed` dictionary built from `lfs getstripe -v` output. -/
structure StripeParsed where
  stripe_count : Option Int
  stripe_size : Option Int
  stripe_offset : Option Int
  pool : Option String
deriving Repr, DecidableEq

def StripeParsed.start : StripeParsed := ⟨none, none, none, none⟩

def StripeParsed.isEmptyDict (s : StripeParsed) : Bool :=
  s.stripe_count.isNone && s.stripe_size.isNone && s.stripe_offset.isNone && s.pool.isNone

/-- The field after the first colon, `line.split(":")[1]`; `none` models
the `IndexError` when the line has no colon. -/
def colonField (l : String) : Option String := (strSplitChar colonChar l)[1]?

/-- The parsing loop of `get_lustre_metadata` over the lines of
`lfs getstripe -v` output.  A `ValueError` from `int(...)` or an
`IndexError` aborts the whole `try` block (result `none`), discarding any
fields already parsed, which the caller turns into an absent
`stripe_parsed`. -/
def parseStripeLines : List String → StripeParsed → Option StripeParsed
  | [], acc => some acc
  | line :: rest, acc =>
      let l := strTrim line
      if containsSub l "stripe_count:" then
        match colonField l with
        | none => none
        | some v =>
            match strToIntOpt (strTrim v) with
            | none => none
            | some n => parseStripeLines rest { acc with stripe_count := some n }
      else if containsSub l "stripe_size:" then
        match colonField l with
        | none => none
        | some v =>
            match strToIntOpt (strTrim v) with
            | none => none
            | some n => parseStripeLines rest { acc with stripe_size := some n }
      else if containsSub l "stripe_offset:" then
        match colonField l with
        | none => none
        | some v =>
            match strToIntOpt (strTrim v) with
            | none => none
            | some n => parseStripeLines rest { acc with stripe_offset := some n }
      else if containsSub l "pool:" then
        match colonField l with
        | none => none
        | some v =>
            if "pool:" ≠ strTrim v then parseStripeLines rest { acc with pool := some (strTrim v) }
            else parseStripeLines rest acc
      else parseStripeLines rest acc

/-- Python `str.isdigit()` for ASCII digits: nonempty and all digits. -/
def strIsDigit (s : String) : Bool := s ≠ "" && s.data.all isDigitChar

/-- The OST index list `[int(x) for x in ost_info.split() if x.strip().isdigit()]`. -/
def parseOstIndices (s : String) : List Nat :=
  ((strSplitWs s).filter strIsDigit).map (fun w => decDigitsToNat w.data)

/-- The best-effort record assembled by `get_lustre_metadata`; each field
is present exactly when the corresponding probe produced truthy output
(and, for `stripe_parsed`, parsed without an exception).  The source
additionally YAML-decodes the `-y` output when a YAML library is
importable; `layout_info` holds the captured text either way, the
decoding being a re-presentation of the same text. -/
structure LustreMetadata where
  stripe_info_raw : Option String
  stripe_parsed : Option StripeParsed
  layout_info : Option String
  ost_indices : Option (List Nat)
  fid : Option String
  component_count : Option Nat
  components : Option (List (Nat × String))
  filesystem_info : Option String
  user_quota : Option String
deriving Repr, DecidableEq

/-- The function `get_lustre_metadata(filepath)`: a sequence of
independently optional `lfs` probes, each through `run_command`. -/
def get_lustre_metadata (env : CmdEnv) (fp : String) : LustreMetadata :=
  let stripeInfo := optTruthy (run_command env (cmdStripeV fp) true)
  let stripeParsed :=
    match stripeInfo with
    | none => none
    | some txt =>
        match parseStripeLines (strSplitChar nlChar txt) StripeParsed.start with
        | none => none
        | some sd => if sd.isEmptyDict then none else some sd
  let compCountRaw := optTruthy (run_command env (cmdCompCount fp) true)
  let compCount :=
    match compCountRaw with
    | none => none
    | some s => if strIsDigit s then some (decDigitsToNat s.data) else none
  let components :=
    match compCount with
    | none => none
    | some n =>
        let comps := (List.range n).filterMap
          (fun i => (optTruthy (run_command env (cmdCompId i fp) true)).map (fun d => (i, d)))
        if comps.isEmpty then none else some comps
  let quotaRaw := optTruthy (run_command env (cmdQuota fp) true)
  { stripe_info_raw := stripeInfo
    stripe_parsed := stripeParsed
    layout_info := optTruthy (run_command env (cmdStripeY fp) true)
    ost_indices := (optTruthy (run_command env (cmdStripeO fp) true)).map parseOstIndices
    fid := optTruthy (run_command env (cmdPath2fid fp) true)
    component_count := compCount
    components := components
    filesystem_info := optTruthy (run_command env (cmdDf fp) true)
    user_quota :=
      match quotaRaw with
      | none => none
      | some q => if containsSub (strToLower q) "not supported" then none else some q }

/-- The record built by `get_extended_attributes(filepath)`. -/
structure XattrData where
  all_attributes : Option String
  selinux : Option String
deriving Repr, DecidableEq

def get_extended_attributes (env : CmdEnv) (fp : String) : XattrData :=
  { all_attributes := optTruthy (run_command env (cmdGetfattrD fp) true)
    selinux := optTruthy (run_command env (cmdGetfattrSel fp) true) }

/-- The record built by `get_acl_info(filepath)`. -/
structure AclData where
  posix_acl : Option String
deriving Repr, DecidableEq

def get_acl_info (env : CmdEnv) (fp : String) : AclData :=
  { posix_acl :=
      match optTruthy (run_command env (cmdGetfacl fp) true) with
      | none => none
      | some a => if containsSub a "Operation not supported" then none else some a }


/-! ## Standard metadata collector

`get_standard_metadata` reads `os.stat` (following symlinks is irrelevant
here; the walker only hands it paths), resolves owner/group ids through
the local name databases, and assembles a fixed-shape record.  The
filesystem is abstracted as an `FsEnv`: the stat result for a path
(`none` models an `OSError`), the readlink result for a path (`none`
models an `OSError`), the uid/gid name databases (`none` models a
`KeyError` from `pwd.getpwuid`/`grp.getgrgid`), and the rendering of an
epoch timestamp by `datetime.fromtimestamp(...).isoformat()`.  Timestamps
are modelled as integers (the source holds floats; no claim depends on
sub-second precision), and `%.1f` float formatting in `format_bytes` is
approximated by truncation to tenths. -/

structure StatResult where
  mode : Nat
  size : Nat
  uid : Nat
  gid : Nat
  atime : Int
  mtime : Int
  ctime : Int
  ino : Nat
  dev : Nat
  nlink : Nat
deriving Repr, DecidableEq

structure FsEnv where
  stat : String → Option StatResult
  readlink : String → Option String
  userName : Nat → Option String
  groupName : Nat → Option String
  isoTime : Int → String

/-- Python `os.path.basename`: the part after the last separator. -/
def basenameStr (p : String) : String := (strSplitChar slashChar p).getLastD ""

/-- The `if/elif` classification of `st_mode` in `get_standard_metadata`,
testing `stat.S_ISREG`, `S_ISDIR`, `S_ISLNK`, `S_ISBLK`, `S_ISCHR`,
`S_ISFIFO`, `S_ISSOCK` in order, with `unknown` as the catch-all.  Each
`S_IS*` predicate compares the format bits `st_mode & 0xF000` with the
corresponding constant. -/
def fileTypeOf (mode : Nat) : String :=
  let fmt := mode &&& 0xF000
  if fmt = 0x8000 then "regular"
  else if fmt = 0x4000 then "directory"
  else if fmt = 0xA000 then "symlink"
  else if fmt = 0x6000 then "block_device"
  else if fmt = 0x2000 then "character_device"
  else if fmt = 0x1000 then "fifo"
  else if fmt = 0xC000 then "socket"
  else "unknown"

/-- The last `n` characters of a string, Python `s[-n:]`. -/
def strTakeRight (s : String) (n : Nat) : String :=
  String.mk (s.data.drop (s.data.length - n))

/-- Python `oct(mode)[-3:]`: the octal rendering (prefixed `0o`) cut to
its last three characters. -/
def octal3 (mode : Nat) : String :=
  strTakeRight ("0o" ++ String.mk (Nat.toDigits 8 mode)) 3

/-- The file-type character of `stat.filemode`, testing the first group
of `_filemode_table` (link, socket, regular, block, directory, character,
fifo, in that order) with `mode & bit == bit`. -/
def filemodeTypeChar (mode : Nat) : String :=
  if mode &&& 0xA000 = 0xA000 then "l"
  else if mode &&& 0xC000 = 0xC000 then "s"
  else if mode &&& 0x8000 = 0x8000 then "-"
  else if mode &&& 0x6000 = 0x6000 then "b"
  else if mode &&& 0x4000 = 0x4000 then "d"
  else if mode &&& 0x2000 = 0x2000 then "c"
  else if mode &&& 0x1000 = 0x1000 then "p"
  else "?"

/-- One read/write/execute group of `stat.filemode`, with the
setuid/setgid/sticky substitution in the execute slot. -/
def rwxTriad (mode r w x sBit : Nat) (sc bigSc : String) : String :=
  (if mode &&& r = r then "r" else "-")
    ++ (if mode &&& w = w then "w" else "-")
    ++ (if mode &&& (sBit ||| x) = sBit ||| x then sc
        else if mode &&& sBit = sBit then bigSc
        else if mode &&& x = x then "x" else "-")

/-- Python `stat.filemode(mode)`: the 10-character symbolic rendering. -/
def filemode (mode : Nat) : String :=
  filemodeTypeChar mode
    ++ rwxTriad mode 256 128 64 2048 "s" "S"
    ++ rwxTriad mode 32 16 8 1024 "s" "S"
    ++ rwxTriad mode 4 2 1 512 "t" "T"

/-- The function `format_bytes`: repeatedly divide by 1024 up to PB and
print one decimal.  The source carries a float and prints with `%.1f`;
this model computes the tenths digit by integer division, which agrees
with the source except for rounding of the final digit (no claim depends
on this field). -/
def format_bytes (n : Nat) : String :=
  if n = 0 then "0 B"
  else
    let units := ["B", "KB", "MB", "GB", "TB", "PB"]
    let rec unitIndex (sz : Nat) (i : Nat) : Nat :=
      match i with
      | 0 => 0
      | j + 1 => if 1024 ≤ sz then unitIndex (sz / 1024) j + 1 else 0
    let idx := unitIndex n (units.length - 1)
    let tenths := n * 10 / 1024 ^ idx
    toString (tenths / 10) ++ "." ++ toString (tenths % 10) ++ " "
      ++ units.getD idx ""

/-- The `permissions` sub-dictionary of `get_standard_metadata`. -/
structure Permissions where
  octal : String
  symbolic : String
  user_readable : Bool
  user_writable : Bool
  user_executable : Bool
  group_readable : Bool
  group_writable : Bool
  group_executable : Bool
  other_readable : Bool
  other_writable : Bool
  other_executable : Bool
  setuid : Bool
  setgid : Bool
  sticky : Bool
deriving Repr, DecidableEq

def permissionsOf (mode : Nat) : Permissions :=
  { octal := octal3 mode
    symbolic := filemode mode
    user_readable := mode &&& 256 != 0
    user_writable := mode &&& 128 != 0
    user_executable := mode &&& 64 != 0
    group_readable := mode &&& 32 != 0
    group_writable := mode &&& 16 != 0
    group_executable := mode &&& 8 != 0
    other_readable := mode &&& 4 != 0
    other_writable := mode &&& 2 != 0
    other_executable := mode &&& 1 != 0
    setuid := mode &&& 2048 != 0
    setgid := mode &&& 1024 != 0
    sticky := mode &&& 512 != 0 }

/-- The `ownership` sub-dictionary. -/
structure Ownership where
  uid : Nat
  gid : Nat
  username : String
  groupname : String
deriving Repr, DecidableEq

/-- The `timestamps` sub-dictionary. -/
structure Timestamps where
  access_time : Int
  modify_time : Int
  change_time : Int
  access_time_iso : String
  modify_time_iso : String
  change_time_iso : String
deriving Repr, DecidableEq

/-- The `inode` sub-dictionary. -/
structure InodeInfo where
  number : Nat
  device : Nat
  links : Nat
deriving Repr, DecidableEq

/-- The full metadata dictionary built on the success path of
`get_standard_metadata`.  `symlink_target` is `none` when the key is
absent (non-symlink), `some none` when the key is present with value
`None` (a failed `os.readlink`), and `some (some t)` otherwise. -/
structure StdMetaRecord where
  path : String
  basename : String
  size_bytes : Nat
  size_human : String
  ftype : String
  permissions : Permissions
  ownership : Ownership
  timestamps : Timestamps
  inode : InodeInfo
  symlink_target : Option (Option String)
deriving Repr, DecidableEq

/-- The result of `get_standard_metadata`: either the full dictionary or
the three-key error dictionary produced when `os.stat` raises. -/
inductive StdMetadata where
  | ok (m : StdMetaRecord)
  | err (path : String) (basename : String) (error : String)
deriving Repr, DecidableEq

/-- The function `get_standard_metadata(filepath)`. -/
def get_standard_metadata (env : FsEnv) (filepath : String) : StdMetadata :=
  match env.stat filepath with
  | none => .err filepath (basenameStr filepath) "Could not get standard metadata"
  | some st =>
      let ft := fileTypeOf st.mode
      .ok
        { path := filepath
          basename := basenameStr filepath
          size_bytes := st.size
          size_human := format_bytes st.size
          ftype := ft
          permissions := permissionsOf st.mode
          ownership :=
            { uid := st.uid
              gid := st.gid
              username := (env.userName st.uid).getD (toString st.uid)
              groupname := (env.groupName st.gid).getD (toString st.gid) }
          timestamps :=
            { access_time := st.atime
              modify_time := st.mtime
              change_time := st.ctime
              access_time_iso := env.isoTime st.atime
              modify_time_iso := env.isoTime st.mtime
              change_time_iso := env.isoTime st.ctime }
          inode := { number := st.ino, device := st.dev, links := st.nlink }
          symlink_target :=
            if ft = "symlink" then some (env.readlink filepath) else none }

/-- The keys of the dictionary `get_standard_metadata` returns, exactly
as the source constructs it: the fixed keys of the literal, plus
`symlink_target` when the entry is a symlink; the error path produces the
three-key dictionary. -/
def stdMetadataKeys : StdMetadata → List String
  | .ok m =>
      ["path", "basename", "size_bytes", "size_human", "type",
       "permissions", "ownership", "timestamps", "inode"]
        ++ (if m.symlink_target.isSome then ["symlink_target"] else [])
  | .err _ _ _ => ["path", "basename", "error"]

/-- The property asserted by the specification (which says the collector
stores content checksums): some key of the produced metadata dictionary
is a checksum field.  This definition follows the claim's words, to be
tested against the record the source actually builds. -/
def includes_checksum (m : StdMetadata) : Bool :=
  (stdMetadataKeys m).any
    (fun k => ["checksum", "checksums", "md5", "sha1", "sha256", "sha512"].contains k)

/-! ## Scan orchestrator

`scan_directory` builds the work list, the directory records, and one
file record per work-list entry; each record carries a 1-based
`scan_order`, its `standard_metadata`, its extended attributes and ACL
info, and (when enabled) Lustre metadata.  The per-directory metadata
dictionaries (`get_directory_metadata`) are not read by any claim; the
result here records the scanned directory paths, which determine the
number and identity of the directory records. -/

structure ScanFileRecord where
  scan_order : Nat
  standard_metadata : StdMetadata
  extended_attributes : XattrData
  acl_info : AclData
  lustre_metadata : Option LustreMetadata
deriving Repr, DecidableEq

structure ScanResults where
  directory : String
  recursive : Bool
  lustre_enabled : Bool
  directories : List String
  files : List ScanFileRecord
  total_files : Nat
  total_directories : Nat
deriving Repr, DecidableEq

/-- The function `scan_directory(directory_path, recursive, enable_lustre,
max_depth)` on an existing directory: collect the entries, the
directories, then one record per entry with `scan_order` from
`enumerate(entries, 1)`, and the final counters. -/
def scan_directory (fs : FsEnv) (cmd : CmdEnv) (tree : FSEntry) (rootPath : String)
    (recursive : Bool) (enableLustre : Bool) (md : Option Nat) : ScanResults :=
  let entries := scan_entries tree rootPath recursive md
  let dirs := collect_directory_tree tree rootPath recursive md
  let files := entries.enum.map (fun ip =>
    ({ scan_order := ip.1 + 1
       standard_metadata := get_standard_metadata fs ip.2
       extended_attributes := get_extended_attributes cmd ip.2
       acl_info := get_acl_info cmd ip.2
       lustre_metadata :=
         if enableLustre then some (get_lustre_metadata cmd ip.2) else none } : ScanFileRecord))
  { directory := rootPath
    recursive := recursive
    lustre_enabled := enableLustre
    directories := dirs
    files := files
    total_files := entries.length
    total_directories := dirs.length }

/-! ## Relational writer (files table)

`insert_scan_data_to_db` walks `results["files"]`, skips any record
whose metadata has a falsy path, and inserts one row per remaining record
into the `files` table, carrying `scan_order` through unchanged.  The
directory-id map resolved from previously inserted directories is
abstracted as a function from a directory path to an optional row id. -/

def StdMetadata.pathOf : StdMetadata → String
  | .ok m => m.path
  | .err p _ _ => p

def StdMetadata.basenameOf : StdMetadata → String
  | .ok m => m.basename
  | .err _ b _ => b

def StdMetadata.sizeBytesOf : StdMetadata → Option Nat
  | .ok m => some m.size_bytes
  | .err _ _ _ => none

def StdMetadata.sizeHumanOf : StdMetadata → Option String
  | .ok m => some m.size_human
  | .err _ _ _ => none

def StdMetadata.ftypeOf : StdMetadata → Option String
  | .ok m => some m.ftype
  | .err _ _ _ => none

/-- `std_meta.get("symlink_target")`: `None` both when the key is absent
and when it holds `None`. -/
def StdMetadata.symlinkTargetOf : StdMetadata → Option String
  | .ok m => m.symlink_target.join
  | .err _ _ _ => none

def StdMetadata.errorOf : StdMetadata → Option String
  | .ok _ => none
  | .err _ _ e => some e

/-- Python `os.path.dirname`: the part before the last separator, with
trailing separators stripped unless the head is all separators. -/
def dirnameStr (p : String) : String :=
  let parts := strSplitChar slashChar p
  if parts.length ≤ 1 then ""
  else
    let head := String.mk (List.intercalate [slashChar] (parts.dropLast.map String.data)) ++ "/"
    if head.data.all (fun c => c = slashChar) then head
    else String.mk (head.data.reverse.dropWhile (fun c => c = slashChar)).reverse

/-- One row of the `files` table. -/
structure FileRow where
  scan_id : Nat
  scan_order : Nat
  path : String
  basename : String
  size_bytes : Option Nat
  size_human : Option String
  file_type : Option String
  symlink_target : Option String
  error_message : Option String
  directory_id : Option Nat
deriving Repr, DecidableEq

/-- The `files`-table portion of `insert_scan_data_to_db`: records with a
falsy path are skipped with a warning; every other record becomes one row
with its `scan_order` persisted unchanged and `directory_id` looked up
from the directory map by the dirname of its path. -/
def insert_file_rows (scanId : Nat) (dirMap : String → Option Nat)
    (files : List ScanFileRecord) : List FileRow :=
  files.filterMap (fun f =>
    let sm := f.standard_metadata
    if sm.pathOf = "" then none
    else some
      { scan_id := scanId
        scan_order := f.scan_order
        path := sm.pathOf
        basename := sm.basenameOf
        size_bytes := sm.sizeBytesOf
        size_human := sm.sizeHumanOf
        file_type := sm.ftypeOf
        symlink_target := sm.symlinkTargetOf
        error_message := sm.errorOf
        directory_id := dirMap (dirnameStr sm.pathOf) })

/-! ## Query-serving component (`run_sql_query` in mcp_server.py)

The database file is modelled as a list of named tables of rows.  A query
string is modelled by the abstract statement it denotes: a `select`
computes rows from the database and changes nothing; a `dml` statement
(INSERT/UPDATE/DELETE/REPLACE) is executed by Python's sqlite3 binding
inside an implicitly opened transaction; any `other` statement (DDL such
as CREATE/DROP, PRAGMA, ...) is executed in autocommit mode when no
transaction is open.  `run_sql_query` executes exactly one statement on a
fresh connection, fetches the rows, and closes the connection without
ever calling `commit()`, so a pending implicit transaction is rolled
back at close. -/

def Row : Type := List String
deriving instance DecidableEq, Repr for Row

structure Table where
  tname : String
  rows : List Row
deriving Repr, DecidableEq

structure Database where
  tables : List Table
deriving Repr, DecidableEq

inductive SqlKind where
  | select (f : Database → List Row)
  | dml (f : Database → Database) (out : List Row)
  | other (f : Database → Database) (out : List Row)

/-- A query as the component receives it: the column names the cursor
reports and the statement the string denotes. -/
structure SqlQuery where
  columns : List String
  kind : SqlKind

/-- A sqlite3 connection in the Python binding's legacy transaction mode:
the durable contents plus an optional open implicit transaction. -/
structure SqlConn where
  committed : Database
  pending : Option Database

def SqlConn.connect (d : Database) : SqlConn := ⟨d, none⟩

/-- The view a statement executes against: pending contents if a
transaction is open, else the durable contents. -/
def SqlConn.current (c : SqlConn) : Database := c.pending.getD c.committed

/-- `cursor.execute(query)` followed by `fetchall()`: a select reads; a
DML statement opens (or continues) the implicit transaction; any other
statement executes in autocommit mode when no transaction is open. -/
def SqlConn.execute (c : SqlConn) (k : SqlKind) : SqlConn × List Row :=
  match k with
  | .select f => (c, f c.current)
  | .dml f out =>
      match c.pending with
      | none => ({ c with pending := some (f c.committed) }, out)
      | some p => ({ c with pending := some (f p) }, out)
  | .other f out =>
      match c.pending with
      | none => ({ c with committed := f c.committed }, out)
      | some p => ({ c with pending := some (f p) }, out)

/-- `conn.close()` without a prior `commit()`: an open transaction is
rolled back; only the committed contents survive. -/
def SqlConn.close (c : SqlConn) : Database := c.committed

/-- The row limit applied before returning results. -/
def rowLimit : Nat := 100

/-- What `run_sql_query` returns: the error string when the database file
does not exist, the fixed message for an empty result, or the JSON
response with `row_count`, `columns`, the (limited) `results`, and the
optional truncation `note`. -/
inductive SqlResponse where
  | missingDb (name : String)
  | noResults
  | success (row_count : Nat) (columns : List String) (results : List Row)
      (note : Option String)
deriving Repr, DecidableEq

/-- Formatting of fetched rows: empty results short-circuit; otherwise
`row_count` is the full count, `results` is cut to the first 100 rows,
and a note reporting the total is attached exactly when more than 100
rows exist. -/
def formatQueryResults (cols : List String) (results : List Row) : SqlResponse :=
  if results.isEmpty then .noResults
  else
    .success results.length cols (results.take rowLimit)
      (if rowLimit < results.length then
        some ("Results limited to first " ++ toString rowLimit
          ++ " rows. Total rows: " ++ toString results.length)
      else none)

/-- The tool `run_sql_query(db, query)`: check the database file exists,
connect, execute the one statement, fetch, close (no commit), and format.
The second component is the database file's contents after the call. -/
def run_sql_query (db : Option Database) (dbName : String) (q : SqlQuery) :
    SqlResponse × Option Database :=
  match db with
  | none => (.missingDb dbName, none)
  | some d =>
      let c := SqlConn.connect d
      let (c2, rows) := c.execute q.kind
      (formatQueryResults q.columns rows, some c2.close)

/-! ## Checkpoint manager and resume (modelled from the spec)

Modelled from the spec: the module docstring of `build_lustre_json.py`
declares checkpoint/resume functionality, but its implementation is not
among the sources; only the declaration is.  Following the
specification's Checkpoint Manager design: on interruption after `k`
fully processed entries the durable state holds the processed-path set
(the first `k` work-list paths, in order) and the partial snapshot (the
records already collected for them); a resumed run takes the walker's
work list, filters out the already-processed paths, processes the rest,
and appends the new records to the snapshot.  The per-entry collection is
abstracted as a function from a path to the entry record. -/

def processed_after (workList : List String) (k : Nat) : List String :=
  workList.take k

def snapshot_after {α : Type} (collect : String → α) (workList : List String)
    (k : Nat) : List α :=
  (workList.take k).map collect

/-- The filtered work list of a resumed run: the walker's work list minus
the processed-path set. -/
def remaining_work (workList processed : List String) : List String :=
  workList.filter (fun p => decide (p ∉ processed))

/-- The merged result document of a resumed run: the partial snapshot
followed by the records of the remaining work. -/
def resume_run {α : Type} (collect : String → α) (workList : List String)
    (k : Nat) : List α :=
  snapshot_after collect workList k
    ++ (remaining_work workList (processed_after workList k)).map collect

/-- The result document of a single uninterrupted run. -/
def full_run {α : Type} (collect : String → α) (workList : List String) : List α :=
  workList.map collect

/-! ## Concrete trees and environments used by the scenario claims -/

/-- The scenario tree `root/{a.txt, sub/{b.txt, subsub/c.txt}}`. -/
def c2Tree : FSEntry :=
  .dir "root" (.cons (.file "a.txt")
    (.cons (.dir "sub" (.cons (.file "b.txt")
      (.cons (.dir "subsub" (.cons (.file "c.txt") .nil)) .nil))) .nil))

/-- A tree whose root contains one symlink to a directory that holds a
regular file. -/
def c4Tree : FSEntry :=
  .dir "root" (.cons (.dlink "link" (.cons (.file "t.txt") .nil)) .nil)

/-- A flat directory with three regular files and one subdirectory. -/
def c5Tree : FSEntry :=
  .dir "flat" (.cons (.file "a.bin")
    (.cons (.file "b.bin")
      (.cons (.file "noext") (.cons (.dir "sub" .nil) .nil))))

/-- A filesystem environment in which every stat fails (the collector
contents are irrelevant to counting claims). -/
def trivialFsEnv : FsEnv :=
  { stat := fun _ => none
    readlink := fun _ => none
    userName := fun _ => none
    groupName := fun _ => none
    isoTime := fun _ => "" }

/-- A command environment in which every external tool exits nonzero. -/
def trivialCmdEnv : CmdEnv := fun _ => ⟨1, "", "", 0⟩

/-- The non-recursive scan of the flat directory. -/
def c5Scan : ScanResults :=
  scan_directory trivialFsEnv trivialCmdEnv c5Tree "/flat" false false none

/-! ## C1: resume equivalence (checkpoint model from the spec) -/

/-- C1: re-running after an interruption processes exactly the complement
of the work list minus the processed set, and the merged result (partial
snapshot plus newly processed entries) equals the result of a single
uninterrupted run — here even as ordered lists, hence in particular as
unordered collections.  The work list is duplicate-free (paths are unique
within a scan) and the interruption happened after `k` of its entries. -/
theorem c1_resume_equivalence {α : Type} (collect : String → α)
    (workList : List String) (k : Nat)
    (hnd : workList.Nodup) (hk : k ≤ workList.length) :
    remaining_work workList (processed_after workList k) = workList.drop k ∧
    resume_run collect workList k = full_run collect workList := by
  have hsplit : workList.take k ++ workList.drop k = workList :=
    List.take_append_drop k workList
  have hdisj : ∀ x ∈ workList.drop k, x ∉ workList.take k := by
    intro x hxd hxt
    rw [← hsplit] at hnd
    exact List.disjoint_of_nodup_append hnd hxt hxd
  have h1 : (workList.take k).filter (fun p => decide (p ∉ workList.take k)) = [] := by
    apply List.filter_eq_nil_iff.mpr
    intro a ha
    simp [ha]
  have h2 : (workList.drop k).filter (fun p => decide (p ∉ workList.take k)) =
      workList.drop k := by
    apply List.filter_eq_self.mpr
    intro a ha
    simp [hdisj a ha]
  have hrw : remaining_work workList (processed_after workList k) = workList.drop k := by
    unfold remaining_work processed_after
    rw [show workList.filter (fun p => decide (p ∉ workList.take k)) =
        (workList.take k ++ workList.drop k).filter
          (fun p => decide (p ∉ workList.take k)) from by rw [hsplit],
      List.filter_append, h1, h2, List.nil_append]
  refine ⟨hrw, ?_⟩
  unfold resume_run snapshot_after full_run
  rw [hrw, ← List.map_append, hsplit]

/-- Witness for C1 at a concrete three-entry work list interrupted after
two entries. -/
theorem c1_resume_equivalence_witness :
    (["/d/a", "/d/b", "/d/c"] : List String).Nodup ∧ 2 ≤ 3 ∧
    remaining_work ["/d/a", "/d/b", "/d/c"]
      (processed_after ["/d/a", "/d/b", "/d/c"] 2) = ["/d/c"] ∧
    resume_run (fun s => s ++ "!") ["/d/a", "/d/b", "/d/c"] 2 =
      full_run (fun s => s ++ "!") ["/d/a", "/d/b", "/d/c"] := by
  have h := c1_resume_equivalence (fun s => s ++ "!") ["/d/a", "/d/b", "/d/c"] 2
    (by decide) (by decide)
  exact ⟨by decide, by decide, by rw [h.1]; rfl, h.2⟩

/-! ## C2: the max-depth scenario -/

/-- C2: counterexample.  With max depth 1 over
`root/{a.txt, sub/{b.txt, subsub/c.txt}}` the claim asserts the result
contains a file entry for `sub/b.txt` and a directory record for `sub`;
the code skips the files of a directory at depth ≥ max depth together
with the descent (`continue` after clearing `dirs`), so both are absent. -/
theorem c2_max_depth_counterexample :
    "/root/sub/b.txt" ∉ scan_entries c2Tree "/root" true (some 1) ∧
    "/root/sub" ∉ collect_directory_tree c2Tree "/root" true (some 1) := by decide

/-- C2 (amended): with max depth 1 the scan emits only the entries of
directories at depth strictly below the limit — for the scenario tree,
exactly `a.txt` and a directory record for the root only; nothing at or
below `sub` is emitted, in particular `c.txt` is absent. -/
theorem c2_max_depth_amended :
    scan_entries c2Tree "/root" true (some 1) = ["/root/a.txt"] ∧
    collect_directory_tree c2Tree "/root" true (some 1) = ["/root"] ∧
    "/root/sub/subsub/c.txt" ∉ scan_entries c2Tree "/root" true (some 1) := by decide

/-! ## C4: symlinks to directories during the walk -/

/-- C4: counterexample.  The claim asserts a symlink targeting a
directory is never descended into; `os.walk` is invoked with
`followlinks=True`, so the file behind the symlinked directory is
enumerated as well. -/
theorem c4_symlink_descent_counterexample :
    "/root/link" ∈ scan_entries c4Tree "/root" true none ∧
    "/root/link/t.txt" ∈ scan_entries c4Tree "/root" true none := by decide

/-- C4 (amended): a symlink to a directory is appended to the work list
as an entry, but the walk (`followlinks=True`) also descends into it: the
subtree of a directory symlink contributes exactly what the same subtree
would contribute under a real directory, and the symlink itself
additionally appears as a leaf entry of its parent. -/
theorem c4_symlink_dir_amended (md : Option Nat) (path : String) (depth : Nat)
    (n pn : String) (cs : FSForest) :
    walkNode md path depth (.dlink n cs) = walkNode md path depth (.dir n cs) ∧
    (prunedAt md depth = false →
      walkNode md path depth (.dir pn (.cons (.dlink n cs) .nil)) =
        joinPath path n :: walkNode md (joinPath path n) (depth + 1) (.dlink n cs)) := by
  constructor
  · rw [walkNode, walkNode]
  · intro hp
    rw [walkNode]
    simp only [hp, if_false, Bool.false_eq_true]
    unfold assembleWalk walkForest
    simp [sortByName, sortPairsByName, FSForest.toList, FSEntry.isDirListed,
      FSEntry.isFileListed, FSEntry.islink, FSEntry.name, sortListBy, insertSortedBy]

/-- Witness for C4 (amended) at the concrete symlink-cycle-free tree. -/
theorem c4_symlink_dir_amended_witness :
    prunedAt none 0 = false ∧
    walkNode none "/root" 0 (.dlink "link" (.cons (.file "t.txt") .nil)) =
      walkNode none "/root" 0 (.dir "link" (.cons (.file "t.txt") .nil)) ∧
    walkNode none "/root" 0 (.dir "root" (.cons (.dlink "link" (.cons (.file "t.txt") .nil)) .nil)) =
      joinPath "/root" "link" ::
        walkNode none (joinPath "/root" "link") 1 (.dlink "link" (.cons (.file "t.txt") .nil)) := by
  have h := c4_symlink_dir_amended none "/root" 0 "link" "root"
    (.cons (.file "t.txt") .nil)
  exact ⟨rfl, h.1, h.2 rfl⟩

/-! ## C5: the flat-directory scenario -/

/-- C5: counterexample.  The claim asserts zero directory entries in the
result of a non-recursive scan; `collect_directory_tree` always includes
the root directory itself, so the result has one directory record. -/
theorem c5_flat_scan_counterexample :
    c5Scan.files.length = 3 ∧ c5Scan.total_files = 3 ∧
    ¬ c5Scan.directories.length = 0 := by decide

/-- C5 (amended): the non-recursive scan of a flat directory with three
regular files and one subdirectory yields exactly 3 file entries, a file
count of 3, and exactly one directory record — the scanned root itself. -/
theorem c5_flat_scan_amended :
    c5Scan.files.length = 3 ∧ c5Scan.total_files = 3 ∧
    c5Scan.directories = ["/flat"] ∧ c5Scan.total_directories = 1 := by decide

/-! ## C3: content checksums -/

/-- The stat record of a 500-byte regular file (mode `0o100644`). -/
def c3Stat : StatResult :=
  { mode := 33188, size := 500, uid := 1000, gid := 1000
    atime := 1700000000, mtime := 1700000000, ctime := 1700000000
    ino := 42, dev := 1, nlink := 1 }

/-- An environment containing that file with resolvable owner names. -/
def c3Env : FsEnv :=
  { stat := fun p => if p = "/data/small.bin" then some c3Stat else none
    readlink := fun _ => none
    userName := fun _ => some "alice"
    groupName := fun _ => some "users"
    isoTime := fun _ => "2023-11-14T22:13:20" }

/-- C3: counterexample.  The claim asserts a cryptographic content
checksum is included in the metadata of every nonzero-size regular file
below the 100 MiB ceiling; for a 500-byte regular file (well below the
ceiling) the collector's record contains no checksum field at all: the
function never reads file contents. -/
theorem c3_checksum_counterexample :
    c3Stat.size = 500 ∧ 500 < 104857600 ∧
    fileTypeOf c3Stat.mode = "regular" ∧
    includes_checksum (get_standard_metadata c3Env "/data/small.bin") = false := by decide

/-- C3 (amended): the standard-attributes collector computes no content
checksums for any path whatsoever — the metadata record never contains a
checksum field, and their absence is not an error (the record is still
produced). -/
theorem c3_no_checksum_amended (env : FsEnv) (fp : String) :
    includes_checksum (get_standard_metadata env fp) = false := by
  unfold get_standard_metadata
  cases h : env.stat fp with
  | none => rfl
  | some st =>
      by_cases hft : fileTypeOf st.mode = "symlink" <;>
        simp [includes_checksum, stdMetadataKeys, hft]

/-! ## C6: bounded timeout on external probes -/

/-- Helper: a command whose duration exceeds the timeout yields `None`
from `run_command`. -/
theorem run_command_timeout (env : CmdEnv) (c : String) (ie : Bool)
    (h : subprocessTimeout < (env c).duration) : run_command env c ie = none := by
  simp [run_command, h]

/-- C6: every external introspection-tool invocation goes through
`run_command`, which passes a 30-second timeout to `subprocess.run`; when
a probe's tool exceeds the timeout the corresponding sub-record is simply
omitted (the collector still returns a record, so nothing is raised and
the scan does not hang on that entry). -/
theorem c6_probe_timeout_omitted (env : CmdEnv) (fp : String) :
    subprocessTimeout = 30 ∧
    (∀ c ie, subprocessTimeout < (env c).duration → run_command env c ie = none) ∧
    (subprocessTimeout < (env (cmdStripeV fp)).duration →
      (get_lustre_metadata env fp).stripe_info_raw = none ∧
      (get_lustre_metadata env fp).stripe_parsed = none) ∧
    (subprocessTimeout < (env (cmdStripeY fp)).duration →
      (get_lustre_metadata env fp).layout_info = none) ∧
    (subprocessTimeout < (env (cmdStripeO fp)).duration →
      (get_lustre_metadata env fp).ost_indices = none) ∧
    (subprocessTimeout < (env (cmdPath2fid fp)).duration →
      (get_lustre_metadata env fp).fid = none) ∧
    (subprocessTimeout < (env (cmdCompCount fp)).duration →
      (get_lustre_metadata env fp).component_count = none ∧
      (get_lustre_metadata env fp).components = none) ∧
    (subprocessTimeout < (env (cmdDf fp)).duration →
      (get_lustre_metadata env fp).filesystem_info = none) ∧
    (subprocessTimeout < (env (cmdQuota fp)).duration →
      (get_lustre_metadata env fp).user_quota = none) ∧
    (subprocessTimeout < (env (cmdGetfattrD fp)).duration →
      (get_extended_attributes env fp).all_attributes = none) ∧
    (subprocessTimeout < (env (cmdGetfattrSel fp)).duration →
      (get_extended_attributes env fp).selinux = none) ∧
    (subprocessTimeout < (env (cmdGetfacl fp)).duration →
      (get_acl_info env fp).posix_acl = none) := by
  refine ⟨rfl, fun c ie h => run_command_timeout env c ie h, ?_, ?_, ?_, ?_, ?_, ?_, ?_, ?_, ?_, ?_⟩ <;>
    intro h <;>
    simp [get_lustre_metadata, get_extended_attributes, get_acl_info,
      run_command_timeout _ _ _ h, optTruthy]

/-- An environment in which every external tool hangs past the timeout. -/
def hangingCmdEnv : CmdEnv := fun _ => ⟨0, "output", "", 31⟩

/-- Witness for C6: with every tool hanging for 31 seconds, all optional
sub-records are omitted. -/
theorem c6_probe_timeout_omitted_witness :
    subprocessTimeout < (hangingCmdEnv (cmdStripeV "/f")).duration ∧
    (get_lustre_metadata hangingCmdEnv "/f").stripe_info_raw = none ∧
    (get_lustre_metadata hangingCmdEnv "/f").user_quota = none ∧
    (get_extended_attributes hangingCmdEnv "/f").all_attributes = none ∧
    (get_acl_info hangingCmdEnv "/f").posix_acl = none := by
  obtain ⟨-, -, h3, -, -, -, -, -, h9, h10, -, h12⟩ :=
    c6_probe_timeout_omitted hangingCmdEnv "/f"
  exact ⟨by decide, (h3 (by decide)).1, h9 (by decide), h10 (by decide), h12 (by decide)⟩

/-! ## C7: owner and group name lookup misses -/

/-- C7: when the uid (and gid) have no entry in the local name database,
`get_standard_metadata` records the stringified numeric ids and produces
the rest of the record exactly as it would otherwise — the lookup miss
never yields the error dictionary. -/
theorem c7_lookup_miss_falls_back (env : FsEnv) (fp : String) (st : StatResult)
    (hstat : env.stat fp = some st)
    (hu : env.userName st.uid = none) (hg : env.groupName st.gid = none) :
    get_standard_metadata env fp = StdMetadata.ok
      { path := fp
        basename := basenameStr fp
        size_bytes := st.size
        size_human := format_bytes st.size
        ftype := fileTypeOf st.mode
        permissions := permissionsOf st.mode
        ownership :=
          { uid := st.uid, gid := st.gid
            username := toString st.uid, groupname := toString st.gid }
        timestamps :=
          { access_time := st.atime, modify_time := st.mtime, change_time := st.ctime
            access_time_iso := env.isoTime st.atime
            modify_time_iso := env.isoTime st.mtime
            change_time_iso := env.isoTime st.ctime }
        inode := { number := st.ino, device := st.dev, links := st.nlink }
        symlink_target :=
          if fileTypeOf st.mode = "symlink" then some (env.readlink fp) else none } := by
  simp [get_standard_metadata, hstat, hu, hg]

/-- The stat record of a regular file owned by unmapped ids. -/
def c7Stat : StatResult :=
  { mode := 33188, size := 10, uid := 4242, gid := 777
    atime := 0, mtime := 0, ctime := 0, ino := 7, dev := 3, nlink := 1 }

/-- An environment whose name databases are empty. -/
def c7Env : FsEnv :=
  { stat := fun _ => some c7Stat
    readlink := fun _ => none
    userName := fun _ => none
    groupName := fun _ => none
    isoTime := fun _ => "1970-01-01T00:00:00" }

/-- Witness for C7 at an environment with no name-database entries. -/
theorem c7_lookup_miss_falls_back_witness :
    c7Env.userName c7Stat.uid = none ∧ c7Env.groupName c7Stat.gid = none ∧
    ∃ m, get_standard_metadata c7Env "/f" = StdMetadata.ok m ∧
      m.ownership.username = "4242" ∧ m.ownership.groupname = "777" ∧
      m.size_bytes = 10 := by
  refine ⟨rfl, rfl, ?_⟩
  have h := c7_lookup_miss_falls_back c7Env "/f" c7Stat rfl rfl rfl
  exact ⟨_, h, rfl, rfl, rfl⟩

/-! ## C8: row limiting with truncation indicator -/

/-- C8: for a query whose execution fetches more than 100 rows, the
response carries the full row count, exactly the first 100 rows, and a
note stating the limit and the total; for 100 rows or fewer all rows are
returned with no note (and an empty result yields the fixed
no-results message). -/
theorem c8_row_limit_truncation (d : Database) (dbName : String) (q : SqlQuery) :
    (rowLimit < ((SqlConn.connect d).execute q.kind).2.length →
      (run_sql_query (some d) dbName q).1 =
        SqlResponse.success ((SqlConn.connect d).execute q.kind).2.length q.columns
          (((SqlConn.connect d).execute q.kind).2.take rowLimit)
          (some ("Results limited to first " ++ toString rowLimit ++ " rows. Total rows: "
            ++ toString ((SqlConn.connect d).execute q.kind).2.length)) ∧
      (((SqlConn.connect d).execute q.kind).2.take rowLimit).length = rowLimit) ∧
    (((SqlConn.connect d).execute q.kind).2 ≠ [] →
      ((SqlConn.connect d).execute q.kind).2.length ≤ rowLimit →
      (run_sql_query (some d) dbName q).1 =
        SqlResponse.success ((SqlConn.connect d).execute q.kind).2.length q.columns
          ((SqlConn.connect d).execute q.kind).2 none) ∧
    (((SqlConn.connect d).execute q.kind).2 = [] →
      (run_sql_query (some d) dbName q).1 = SqlResponse.noResults) := by
  refine ⟨fun hlim => ?_, fun hne hle => ?_, fun hemp => ?_⟩
  · have hne : ¬ ((SqlConn.connect d).execute q.kind).2.isEmpty := by
      intro hcon
      rw [List.isEmpty_iff] at hcon
      rw [hcon] at hlim
      simp [rowLimit] at hlim
    constructor
    · simp [run_sql_query, formatQueryResults, hne, hlim]
    · rw [List.length_take]
      omega
  · have hne2 : ¬ ((SqlConn.connect d).execute q.kind).2.isEmpty := by
      simpa [List.isEmpty_iff] using hne
    have hnl : ¬ rowLimit < ((SqlConn.connect d).execute q.kind).2.length := by omega
    simp [run_sql_query, formatQueryResults, hne2, hnl,
      List.take_of_length_le hle]
  · simp [run_sql_query, formatQueryResults, hemp]

/-- A select producing 150 rows and one producing 5 rows. -/
def c8BigQuery : SqlQuery :=
  { columns := ["path"], kind := .select (fun _ => List.replicate 150 (["r"] : Row)) }

def c8SmallQuery : SqlQuery :=
  { columns := ["path"], kind := .select (fun _ => List.replicate 5 (["r"] : Row)) }

def c8Db : Database := ⟨[]⟩

set_option maxRecDepth 40000 in
/-- Witness for C8: 150 fetched rows are cut to 100 with a note stating
the total; 5 fetched rows are returned whole with no note. -/
theorem c8_row_limit_truncation_witness :
    rowLimit < 150 ∧
    (run_sql_query (some c8Db) "scan" c8BigQuery).1 =
      SqlResponse.success 150 ["path"] (List.replicate 100 (["r"] : Row))
        (some ("Results limited to first " ++ toString rowLimit ++ " rows. Total rows: "
          ++ toString 150)) ∧
    (run_sql_query (some c8Db) "scan" c8SmallQuery).1 =
      SqlResponse.success 5 ["path"] (List.replicate 5 (["r"] : Row)) none := by
  obtain ⟨h1, -, -⟩ := c8_row_limit_truncation c8Db "scan" c8BigQuery
  obtain ⟨-, g2, -⟩ := c8_row_limit_truncation c8Db "scan" c8SmallQuery
  exact ⟨by decide, (h1 (by decide)).1, g2 (by decide) (by decide)⟩

/-! ## C9: read-only execution -/

/-- A produced database with a `files` table. -/
def c9Db : Database := ⟨[⟨"files", [["1"]]⟩]⟩

/-- The statement `DROP TABLE files` as executed by sqlite3: a non-DML,
non-select statement removing the table, run in autocommit mode. -/
def c9DropQuery : SqlQuery :=
  { columns := []
    kind := .other (fun db => ⟨db.tables.filter (fun t => t.tname ≠ "files")⟩) [] }

/-- C9: counterexample.  The claim asserts the database contents after
any query equal the contents before; a DDL statement such as
`DROP TABLE files` executes in autocommit mode (no implicit transaction
is opened for it), so closing without commit does not undo it and the
database file has changed. -/
theorem c9_ddl_persists_counterexample :
    (run_sql_query (some c9Db) "scan" c9DropQuery).2 = some ⟨[]⟩ ∧
    (run_sql_query (some c9Db) "scan" c9DropQuery).2 ≠ some c9Db := by
  constructor
  · rfl
  · intro h
    simp [run_sql_query, SqlConn.execute, SqlConn.close, SqlConn.connect, c9Db,
      c9DropQuery, Database.mk.injEq] at h

/-- Whether the statement is a select or a DML statement (the kinds for
which Python's sqlite3 binding either reads only or opens an implicit
transaction that `close()` without `commit()` rolls back). -/
def SqlKind.isSelectOrDml : SqlKind → Bool
  | .select _ => true
  | .dml _ _ => true
  | .other _ _ => false

/-- C9 (amended): execution through the component leaves the database
unchanged for every select and every DML statement — the latter because
the implicit transaction is rolled back when the connection is closed
without commit — but not for arbitrary query strings: DDL executed in
autocommit mode persists. -/
theorem c9_read_only_amended (d : Database) (dbName : String) (q : SqlQuery)
    (h : q.kind.isSelectOrDml = true) :
    (run_sql_query (some d) dbName q).2 = some d := by
  obtain ⟨cols, k⟩ := q
  cases k with
  | select f => simp [run_sql_query, SqlConn.execute, SqlConn.close, SqlConn.connect]
  | dml f out => simp [run_sql_query, SqlConn.execute, SqlConn.close, SqlConn.connect]
  | other f out => simp [SqlKind.isSelectOrDml] at h

/-- The statement `DELETE FROM files` as sqlite3 executes it: a DML
statement emptying the table inside the implicit transaction. -/
def c9DeleteQuery : SqlQuery :=
  { columns := []
    kind := .dml (fun db => ⟨db.tables.map (fun t => ⟨t.tname, []⟩)⟩) [] }

/-- The statement `SELECT tname FROM sqlite_master`-style read. -/
def c9SelectQuery : SqlQuery :=
  { columns := ["path"]
    kind := .select (fun db => db.tables.map (fun t => ([t.tname] : Row))) }

/-- Witness for C9 (amended): a select and a DELETE both leave the
database file unchanged. -/
theorem c9_read_only_amended_witness :
    (SqlQuery.kind c9DeleteQuery).isSelectOrDml = true ∧
    (run_sql_query (some c9Db) "scan" c9DeleteQuery).2 = some c9Db ∧
    (run_sql_query (some c9Db) "scan" c9SelectQuery).2 = some c9Db := by
  exact ⟨rfl, c9_read_only_amended c9Db "scan" c9DeleteQuery rfl,
    c9_read_only_amended c9Db "scan" c9SelectQuery rfl⟩

/-! ## C10: scan order invariants -/

theorem insertSortedBy_perm {α : Type} (le : α → α → Bool) (x : α) (l : List α) :
    (insertSortedBy le x l).Perm (x :: l) := by
  induction l with
  | nil => exact List.Perm.refl _
  | cons y ys ih =>
      unfold insertSortedBy
      by_cases h : le x y = true
      · rw [if_pos h]
      · rw [if_neg h]
        exact (List.Perm.cons y ih).trans (List.Perm.swap x y ys)

theorem sortListBy_perm {α : Type} (le : α → α → Bool) (l : List α) :
    (sortListBy le l).Perm l := by
  induction l with
  | nil => exact List.Perm.refl _
  | cons x xs ih =>
      unfold sortListBy
      exact (insertSortedBy_perm le x (sortListBy le xs)).trans (List.Perm.cons x ih)

theorem joinPath_ne_empty (p n : String) : joinPath p n ≠ "" := by
  intro h
  have h2 := congrArg String.length h
  rw [joinPath, String.length_append, String.length_append,
    show String.length "/" = 1 from rfl, show String.length "" = 0 from rfl] at h2
  omega

mutual
/-- Every entry the walk produces is a joined path (in particular it is
nonempty). -/
theorem walkNode_mem_join (md : Option Nat) (e : FSEntry) :
    ∀ path depth s, s ∈ walkNode md path depth e → ∃ a b, s = joinPath a b :=
  match e with
  | .file _ => fun _ _ s hs => by simp [walkNode] at hs
  | .flink _ => fun _ _ s hs => by simp [walkNode] at hs
  | .special _ => fun _ _ s hs => by simp [walkNode] at hs
  | .dir nm cs => fun path depth s hs => by
      simp only [walkNode] at hs
      split at hs
      · simp at hs
      · simp only [assembleWalk, List.mem_append] at hs
        rcases hs with (hs | hs) | hs
        · rcases List.mem_map.mp hs with ⟨c, -, rfl⟩
          exact ⟨path, c.name, rfl⟩
        · rcases List.mem_map.mp hs with ⟨c, -, rfl⟩
          exact ⟨path, c.name, rfl⟩
        · rcases List.mem_flatMap.mp hs with ⟨pr, hpr, hsp⟩
          have hpr2 : pr ∈ walkForest md path depth cs :=
            ((sortListBy_perm _ _).mem_iff).mp hpr
          exact walkForest_mem_join md cs path depth pr s hpr2 hsp
  | .dlink nm cs => fun path depth s hs => by
      simp only [walkNode] at hs
      split at hs
      · simp at hs
      · simp only [assembleWalk, List.mem_append] at hs
        rcases hs with (hs | hs) | hs
        · rcases List.mem_map.mp hs with ⟨c, -, rfl⟩
          exact ⟨path, c.name, rfl⟩
        · rcases List.mem_map.mp hs with ⟨c, -, rfl⟩
          exact ⟨path, c.name, rfl⟩
        · rcases List.mem_flatMap.mp hs with ⟨pr, hpr, hsp⟩
          have hpr2 : pr ∈ walkForest md path depth cs :=
            ((sortListBy_perm _ _).mem_iff).mp hpr
          exact walkForest_mem_join md cs path depth pr s hpr2 hsp

/-- Every entry found below any child of a walked directory is a joined
path. -/
theorem walkForest_mem_join (md : Option Nat) (f : FSForest) :
    ∀ path depth pr s, pr ∈ walkForest md path depth f → s ∈ pr.2 →
      ∃ a b, s = joinPath a b :=
  match f with
  | .nil => fun _ _ pr s hpr _ => by simp [walkForest] at hpr
  | .cons c rest => fun path depth pr s hpr hs => by
      simp only [walkForest, List.mem_append] at hpr
      rcases hpr with hl | hr
      · by_cases hd : c.isDirListed = true
        · rw [if_pos hd] at hl
          simp only [List.mem_singleton] at hl
          subst hl
          exact walkNode_mem_join md c (joinPath path c.name) (depth + 1) s hs
        · rw [if_neg hd] at hl
          simp at hl
      · exact walkForest_mem_join md rest path depth pr s hr hs
end

/-- Every work-list entry of a scan is a nonempty path. -/
theorem scan_entries_ne_empty (tree : FSEntry) (rootPath : String)
    (recursive : Bool) (md : Option Nat) :
    ∀ s ∈ scan_entries tree rootPath recursive md, s ≠ "" := by
  intro s hs
  unfold scan_entries at hs
  by_cases hr : recursive
  · rw [if_pos hr] at hs
    obtain ⟨a, b, rfl⟩ := walkNode_mem_join md tree rootPath 0 s hs
    exact joinPath_ne_empty a b
  · rw [if_neg hr] at hs
    rcases List.mem_map.mp hs with ⟨c, -, rfl⟩
    exact joinPath_ne_empty _ _

/-- The metadata's path field is the scanned path, on both the success
and the error branch. -/
theorem pathOf_get_standard_metadata (env : FsEnv) (fp : String) :
    (get_standard_metadata env fp).pathOf = fp := by
  cases h : env.stat fp <;> simp [get_standard_metadata, h, StdMetadata.pathOf]

/-- When no record has a falsy path, the insert skips nothing and carries
every `scan_order` through unchanged. -/
theorem insert_file_rows_scan_order (scanId : Nat) (dirMap : String → Option Nat)
    (fl : List ScanFileRecord) (h : ∀ f ∈ fl, f.standard_metadata.pathOf ≠ "") :
    (insert_file_rows scanId dirMap fl).map FileRow.scan_order =
      fl.map ScanFileRecord.scan_order := by
  induction fl with
  | nil => rfl
  | cons f fs ih =>
      have hf : ¬ f.standard_metadata.pathOf = "" := h f (List.mem_cons_self f fs)
      have hrest := fun g hg => h g (List.mem_cons_of_mem f hg)
      simp only [insert_file_rows, List.filterMap_cons, if_neg hf] at ih ⊢
      simp only [List.map_cons]
      rw [ih hrest]

/-- C10: in every completed scan the file records carry `scan_order`
values 1..N in processing order (`enumerate(entries, 1)`), the session's
`total_files` equals N, and the relational writer persists the
`scan_order` values into the `files` table unchanged (no record is
skipped, since every work-list path is nonempty). -/
theorem c10_scan_order_persisted (fs : FsEnv) (cmd : CmdEnv) (tree : FSEntry)
    (rootPath : String) (recursive : Bool) (enableLustre : Bool) (md : Option Nat)
    (scanId : Nat) (dirMap : String → Option Nat) :
    (scan_directory fs cmd tree rootPath recursive enableLustre md).files.map
        ScanFileRecord.scan_order =
      List.range' 1
        (scan_directory fs cmd tree rootPath recursive enableLustre md).files.length ∧
    (scan_directory fs cmd tree rootPath recursive enableLustre md).total_files =
      (scan_directory fs cmd tree rootPath recursive enableLustre md).files.length ∧
    (insert_file_rows scanId dirMap
        (scan_directory fs cmd tree rootPath recursive enableLustre md).files).map
        FileRow.scan_order =
      (scan_directory fs cmd tree rootPath recursive enableLustre md).files.map
        ScanFileRecord.scan_order := by
  simp only [scan_directory]
  refine ⟨?_, ?_, ?_⟩
  · rw [List.map_map, List.length_map, List.enum_length]
    have hcomp :
        (ScanFileRecord.scan_order ∘ fun ip : Nat × String =>
          ({ scan_order := ip.1 + 1
             standard_metadata := get_standard_metadata fs ip.2
             extended_attributes := get_extended_attributes cmd ip.2
             acl_info := get_acl_info cmd ip.2
             lustre_metadata :=
               if enableLustre then some (get_lustre_metadata cmd ip.2)
               else none } : ScanFileRecord)) =
          (fun n => n + 1) ∘ Prod.fst := rfl
    rw [hcomp, ← List.map_map, List.enum_map_fst, List.range'_eq_map_range]
    simp [Nat.add_comm]
  · rw [List.length_map, List.enum_length]
  · apply insert_file_rows_scan_order
    intro f hf
    rcases List.mem_map.mp hf with ⟨ip, hip, rfl⟩
    have hmem : ip.2 ∈ scan_entries tree rootPath recursive md := by
      have := List.enum_map_snd (scan_entries tree rootPath recursive md)
      rw [← this]
      exact List.mem_map_of_mem Prod.snd hip
    have hne := scan_entries_ne_empty tree rootPath recursive md ip.2 hmem
    simpa [pathOf_get_standard_metadata] using hne
